import Mathlib

/-
Verification development for the Jupyter-Engagement-Helper repository.

The repository ships several variant implementations of one JupyterLab
engagement-tracking plugin:
  * `src/index.ts` and two early variants: a global event buffer flushed
    into notebook metadata (`flush`), with the persisted summary recomputed
    from the retained event log (capped at 5000 entries) and the rendered
    markdown summary cell (`updateSummary` / `updateSummaryCell`).
  * a per-document state-machine variant (part_003): `handleCellRun`,
    `handleCellError`, `handleActiveCellChange` mutate a per-panel
    `Summary`, and `loadSummaryFromUI` / `updateSummaryUI` parse and render
    the tagged markdown summary cell.
  * a debounced-save variant (part_002, `SAVE_DEBOUNCE_MS = 750`):
    `updateInMemorySummary` reschedules a single save timer per mutation and
    `persistSummaryToFile` writes `{ ...store, summary }` under the fixed
    metadata key `"engage"`; the `disposed` handler clears the timer and
    discards the panel state.

Below, each TypeScript function is embedded as an executable Lean
definition; machine numbers are `Nat` (the counters only ever grow by
JavaScript `+`, far from 2^53), JavaScript `Math.round(a / 60000)` on a
natural `a` is the exact half-up rounding `(a + 30000) / 60000`, and the
host's fallible metadata write is an `Except`.
-/

/-! ### Data model -/

/-- Event kinds of the event-log variants (`EngageEvent.evt` in the source:
`'open' | 'runCell' | 'error'`). -/
inductive EvKind where
  | openNb
  | runCell
  | errorNb
deriving DecidableEq

/-- An `EngageEvent` from `src/index.ts`: timestamp, kind, notebook path,
optional execution counter and error name. -/
structure EngageEvent where
  ts : Nat
  evt : EvKind
  nb : String
  cell : Option Nat := none
  ename : Option String := none
deriving DecidableEq

/-- The three-field `Summary` of `src/index.ts` and the part_002 variants. -/
structure Summary3 where
  runCnt : Nat
  errCnt : Nat
  activeMs : Nat
deriving DecidableEq

/-- The five-field `Summary` of the part_003 state-machine variant. -/
structure SummaryP3 where
  runCnt : Nat
  errCnt : Nat
  activeMs : Nat
  markdownActiveMs : Nat
  uniqueCellsExecuted : Nat
deriving DecidableEq

/-- Per-panel state of the part_003 variant (`PanelState`): the summary, the
markdown-focus marker, the last unresolved error and the set of executed
cells (a JavaScript `Set`, modelled as a duplicate-free list in insertion
order; only membership and size are ever used). -/
structure PanelStateP3 where
  summary : SummaryP3
  markdownFocusStartTs : Option Nat
  lastError : Option (String × Nat)
  executedCells : List String
deriving DecidableEq

/-- The fixed engagement credit `ENGAGEMENT_CREDIT_MS = 5000` of part_003. -/
def ENGAGEMENT_CREDIT_MS : Nat := 5000

/-- The debounce quiet period `SAVE_DEBOUNCE_MS = 750` of part_002. -/
def SAVE_DEBOUNCE_MS : Nat := 750

/-- The tag marking the managed summary cell (`SUMMARY_CELL_TAG`). -/
def SUMMARY_CELL_TAG : String := "engage-summary"

/-! ### part_003 state machine: handleCellRun / handleCellError /
handleActiveCellChange -/

/-- JavaScript `Set.add`: appends the element unless already present. -/
def insertCell (l : List String) (id : String) : List String :=
  if id ∈ l then l else l ++ [id]

/-- `handleCellRun(panel, cell)` from part_003: clears a matching
`lastError`, adds the cell to `executedCells`, refreshes
`uniqueCellsExecuted`, increments `runCnt` and credits
`ENGAGEMENT_CREDIT_MS` to `activeMs`. -/
def handleCellRun (st : PanelStateP3) (now : Nat) (id : String) : PanelStateP3 :=
  let lastError :=
    match st.lastError with
    | some (cid, t0) => if cid = id then none else some (cid, t0)
    | none => none
  let executed := insertCell st.executedCells id
  { st with
    lastError := lastError
    executedCells := executed
    summary := { st.summary with
      uniqueCellsExecuted := executed.length
      runCnt := st.summary.runCnt + 1
      activeMs := st.summary.activeMs + ENGAGEMENT_CREDIT_MS } }

/-- `handleCellError(panel, cell)` from part_003: records the error as
`lastError`, increments `errCnt` and credits `ENGAGEMENT_CREDIT_MS`. -/
def handleCellError (st : PanelStateP3) (now : Nat) (id : String) : PanelStateP3 :=
  { st with
    lastError := some (id, now)
    summary := { st.summary with
      errCnt := st.summary.errCnt + 1
      activeMs := st.summary.activeMs + ENGAGEMENT_CREDIT_MS } }

/-- `handleActiveCellChange(panel, newActiveCell)` from part_003: closes an
open markdown-focus interval into `markdownActiveMs` and re-arms the marker
when the newly focused cell is markdown. -/
def handleActiveCellChange (st : PanelStateP3) (now : Nat) (isMarkdown : Bool) :
    PanelStateP3 :=
  let summary :=
    match st.markdownFocusStartTs with
    | some t0 => { st.summary with
        markdownActiveMs := st.summary.markdownActiveMs + (now - t0) }
    | none => st.summary
  { st with
    summary := summary
    markdownFocusStartTs := if isMarkdown then some now else none }

/-- One normalized runtime/host event for the part_003 state machine. -/
inductive PEvent where
  | execInput (now : Nat) (cell : String)
  | errorMsg (now : Nat) (cell : String)
  | activeCellChange (now : Nat) (isMarkdown : Bool)
deriving DecidableEq

/-- Dispatch of one event to its part_003 handler (the `anyMessage` and
`activeCellChanged` connections in `attach`). -/
def stepEvent (st : PanelStateP3) (e : PEvent) : PanelStateP3 :=
  match e with
  | .execInput now cell => handleCellRun st now cell
  | .errorMsg now cell => handleCellError st now cell
  | .activeCellChange now isMd => handleActiveCellChange st now isMd

/-- Processing a whole event sequence in arrival order. -/
def processEvents (st : PanelStateP3) (evs : List PEvent) : PanelStateP3 :=
  evs.foldl stepEvent st

/-- True for the events that the part_003 handlers credit engagement time
for (execution and error; focus changes credit nothing). -/
def isCreditEvent : PEvent → Bool
  | .execInput _ _ => true
  | .errorMsg _ _ => true
  | .activeCellChange _ _ => false

/-- True exactly for execution events. -/
def isExecEvent : PEvent → Bool
  | .execInput _ _ => true
  | _ => false

/-- True exactly for error events. -/
def isErrorEvent : PEvent → Bool
  | .errorMsg _ _ => true
  | _ => false

/-! ### index.ts flush: event-log merge and summary recomputation -/

/-- The event-log merge of `flush`: `[...prev.events, ...buffer].slice(-5000)`
(keeps the newest at most 5000 entries). -/
def mergedEvents (prev buffer : List EngageEvent) : List EngageEvent :=
  let all := prev ++ buffer
  all.drop (all.length - 5000)

/-- Timestamp of the last event of a nonempty list
(`merged[merged.length - 1].ts`); 0 for the empty list. -/
def lastTs : List EngageEvent → Nat
  | [] => 0
  | [e] => e.ts
  | _ :: rest => lastTs rest

/-- The summary numbers `flush` computes from the merged event log:
`runCnt` and `errCnt` count the retained events of each kind, and
`activeMs` is the timestamp span from the first to the last retained
event. -/
def flushSummary (merged : List EngageEvent) : Summary3 :=
  { runCnt := (merged.filter (fun e => e.evt == EvKind.runCell)).length
    errCnt := (merged.filter (fun e => e.evt == EvKind.errorNb)).length
    activeMs := match merged with
      | [] => 0
      | e :: rest => lastTs (e :: rest) - e.ts }

/-! ### Renderer and parser (part_003 updateSummaryUI / loadSummaryFromUI) -/

/-- Cell kinds of the notebook model (`'code' | 'markdown'`). -/
inductive CType where
  | code
  | markdown
deriving DecidableEq

/-- One notebook cell as the plugin sees it: type, tag list and source. -/
structure CellData where
  ctype : CType
  tags : List String
  source : String
deriving DecidableEq

/-- The tagged-summary-cell test used by every variant: a markdown cell
whose `tags` metadata contains `SUMMARY_CELL_TAG`. -/
def isTaggedMarkdown (c : CellData) : Bool :=
  c.ctype == CType.markdown && c.tags.contains SUMMARY_CELL_TAG

/-- `totalCodeCellCount` of `updateSummaryUI`: the number of code cells in
the notebook. -/
def totalCodeCellCount (cells : List CellData) : Nat :=
  (cells.filter (fun c => c.ctype == CType.code)).length

/-- JavaScript `Math.round(a / 60000)` for a natural `a`: exact half-up
rounding. -/
def jsRoundMin (a : Nat) : Nat :=
  (a + 30000) / 60000

/-- The completion percentage of `updateSummaryUI`:
`total > 0 ? Math.round(unique / total * 100) : 0`, with the float
rounding modelled as exact rational half-up rounding (the claims proved
below only evaluate it at `unique = 0` or `total = 0`, where both agree). -/
def progressPercent (unique total : Nat) : Nat :=
  if 0 < total then (100 * unique + total / 2) / total else 0

/-- The `Run count` table row of the part_003 markdown template. -/
def runRow (s : SummaryP3) : String :=
  "| Run count | " ++ Nat.repr s.runCnt ++ " |"

/-- The `Error count` table row. -/
def errRow (s : SummaryP3) : String :=
  "| Error count | " ++ Nat.repr s.errCnt ++ " |"

/-- The `Active time (min)` table row. -/
def activeRow (s : SummaryP3) : String :=
  "| Active time (min) | " ++ Nat.repr (jsRoundMin s.activeMs) ++ " |"

/-- The `Markdown Reading (min)` table row. -/
def mdReadRow (s : SummaryP3) : String :=
  "| Markdown Reading (min) | " ++ Nat.repr (jsRoundMin s.markdownActiveMs) ++ " |"

/-- The `Unique Cells Run` table row. -/
def uniqueRow (s : SummaryP3) : String :=
  "| Unique Cells Run | " ++ Nat.repr s.uniqueCellsExecuted ++ " |"

/-- The `Progress Completion` table row (depends on the notebook's code-cell
count). -/
def progressRow (s : SummaryP3) (cells : List CellData) : String :=
  "| Progress Completion | "
    ++ Nat.repr (progressPercent s.uniqueCellsExecuted (totalCodeCellCount cells))
    ++ "% |"

/-- The full markdown block built by part_003's `updateSummaryUI` (the
template literal, whose `.trim()` is a no-op). -/
def renderMdP3 (s : SummaryP3) (cells : List CellData) : String :=
  "**Engagement Summary (auto-generated)**\n\n| Metric | Value |\n|:---|---:|\n"
    ++ runRow s ++ "\n"
    ++ errRow s ++ "\n"
    ++ activeRow s ++ "\n"
    ++ mdReadRow s ++ "\n"
    ++ uniqueRow s ++ "\n"
    ++ progressRow s cells

/-- Matches a literal character sequence at the head of the input, returning
the rest on success. -/
def dropLit : List Char → List Char → Option (List Char)
  | [], s => some s
  | _ :: _, [] => none
  | a :: as, b :: bs => if a = b then dropLit as bs else none

/-- The character class of the JavaScript regex `\s` (the rendered blocks
only ever contain spaces and newlines). -/
def isSpaceJs (c : Char) : Bool :=
  c = ' ' || c = '\t' || c = '\n' || c = '\r'

/-- Digits-to-number, as `parseInt(m, 10)` on a `\d+` capture. -/
def natOfDigits (ds : List Char) : Nat :=
  ds.foldl (fun n c => n * 10 + (c.toNat - 48)) 0

/-- After the literal row label, the tail pattern of the row regexes:
`\s*\|\s*(\d+)\s*\|`.  Greedy matching is deterministic here because the
`\s`, `\d` and `\|` classes are disjoint. -/
def matchTail (s : List Char) : Option Nat :=
  match s.dropWhile isSpaceJs with
  | '|' :: s2 =>
    let s3 := s2.dropWhile isSpaceJs
    let digits := s3.takeWhile Char.isDigit
    match digits with
    | [] => none
    | _ :: _ =>
      match (s3.dropWhile Char.isDigit).dropWhile isSpaceJs with
      | '|' :: _ => some (natOfDigits digits)
      | _ => none
  | _ => none

/-- Leftmost match of `label` followed by the row tail pattern, as
`source.match(regex)` finds it. -/
def findRow (label : List Char) : List Char → Option Nat
  | [] => none
  | c :: rest =>
    match (dropLit label (c :: rest)).bind matchTail with
    | some n => some n
    | none => findRow label rest

/-- `loadSummaryFromUI` of part_003, restricted to its parsing of the
summary cell's source: each metric row is extracted independently; an
absent row leaves the zero default; the minute values are scaled back by
`* 60000`. -/
def loadSummaryFromUI (source : String) : SummaryP3 :=
  let cs := source.data
  let runMatch := findRow ("| Run count".data) cs
  let errMatch := findRow ("| Error count".data) cs
  let activeTimeMatch := findRow ("| Active time (min)".data) cs
  let markdownTimeMatch := findRow ("| Markdown Reading (min)".data) cs
  let uniqueCellsMatch := findRow ("| Unique Cells Run".data) cs
  { runCnt := runMatch.getD 0
    errCnt := errMatch.getD 0
    activeMs := match activeTimeMatch with
      | some n => n * 60000
      | none => 0
    markdownActiveMs := match markdownTimeMatch with
      | some n => n * 60000
      | none => 0
    uniqueCellsExecuted := uniqueCellsMatch.getD 0 }

/-! ### Summary-cell placement (part_002 updateSummaryCell, index.ts
updateSummary) -/

/-- The markdown cell the early variants create for the summary block
(tags `[TAG, 'hide_input', 'hide_output']`). -/
def mkSummaryCellV0 (md : String) : CellData :=
  { ctype := CType.markdown
    tags := [SUMMARY_CELL_TAG, "hide_input", "hide_output"]
    source := md }

/-- `updateSummaryCell` of the first part_002 variant: refresh the first
tagged markdown cell if one exists, otherwise create one and
`cells.push` it — appending it at the END of the cell list. -/
def updateSummaryCell : List CellData → String → List CellData
  | [], md => [mkSummaryCellV0 md]
  | c :: rest, md =>
    if isTaggedMarkdown c then { c with source := md } :: rest
    else c :: updateSummaryCell rest md

/-- Refresh the source of the first tagged markdown cell, leaving every
other cell alone. -/
def replaceFirstTagged : List CellData → String → List CellData
  | [], _ => []
  | c :: rest, md =>
    if isTaggedMarkdown c then { c with source := md } :: rest
    else c :: replaceFirstTagged rest md

/-- `updateSummary` of `src/index.ts`: refresh the tagged cell if present,
otherwise `sharedModel.insertCells(0, [...])` — inserting the new tagged
markdown cell at index 0. -/
def updateSummary (cells : List CellData) (md : String) : List CellData :=
  if cells.any isTaggedMarkdown then replaceFirstTagged cells md
  else mkSummaryCellV0 md :: cells

/-! ### Debounced write-back (part_002 updateInMemorySummary) and disposal -/

/-- Timer state of one panel's debounced save: the pending deadline (if a
timer is armed) and the times at which `persistSummaryToFile` has fired. -/
structure DbState where
  deadline : Option Nat
  saves : List Nat
deriving DecidableEq

/-- Initial timer state: no timer armed, no saves. -/
def initDb : DbState := { deadline := none, saves := [] }

/-- One `updateInMemorySummary` mutation at time `t`: if the armed timer was
already due it has fired (recording a save), and in every case
`clearTimeout` plus `setTimeout` leave a single timer due at
`t + SAVE_DEBOUNCE_MS`. -/
def debounceStep (s : DbState) (t : Nat) : DbState :=
  match s.deadline with
  | none => { deadline := some (t + SAVE_DEBOUNCE_MS), saves := s.saves }
  | some d =>
    if d ≤ t then { deadline := some (t + SAVE_DEBOUNCE_MS), saves := s.saves ++ [d] }
    else { deadline := some (t + SAVE_DEBOUNCE_MS), saves := s.saves }

/-- A burst of mutations at the given (ascending) times. -/
def runMutations (s : DbState) (ts : List Nat) : DbState :=
  ts.foldl debounceStep s

/-- Let time run out after the burst: a still-armed timer fires its save. -/
def drainTimer (s : DbState) : List Nat :=
  match s.deadline with
  | some d => s.saves ++ [d]
  | none => s.saves

/-- The last element of `d :: l`. -/
def lastTime (d : Nat) : List Nat → Nat
  | [] => d
  | t :: ts => lastTime t ts

/-- Lifecycle state of one tracked document in the part_002 debounced
variants: the armed save timer, the fired saves, whether the in-memory
summary has unsaved changes, and whether the `DocumentState` is still
alive (present in `panelState`). -/
structure DocLife where
  deadline : Option Nat
  saves : List Nat
  unsaved : Bool
  alive : Bool
deriving DecidableEq

/-- A fresh tracked document: no timer, nothing unsaved, alive. -/
def initDoc : DocLife := { deadline := none, saves := [], unsaved := false, alive := true }

/-- At time `t`, fire the armed timer if its deadline has passed: the save
runs and the summary is persisted (nothing unsaved any more). -/
def fireIfDue (s : DocLife) (t : Nat) : DocLife :=
  match s.deadline with
  | some d =>
    if d ≤ t then { deadline := none, saves := s.saves ++ [d], unsaved := false, alive := s.alive }
    else s
  | none => s

/-- A summary mutation at time `t` on a live document: marks the summary
unsaved and (re)arms the single save timer. -/
def mutateAt (s : DocLife) (t : Nat) : DocLife :=
  let s' := fireIfDue s t
  if s'.alive then
    { deadline := some (t + SAVE_DEBOUNCE_MS), saves := s'.saves, unsaved := true, alive := true }
  else s'

/-- The `disposed` handler of the part_002 variants at time `t`:
`clearTimeout(state.saveTimeout)` then `panelState.delete(panel)`.  It
performs no save of its own. -/
def disposeAt (s : DocLife) (t : Nat) : DocLife :=
  let s' := fireIfDue s t
  { deadline := none, saves := s'.saves, unsaved := s'.unsaved, alive := false }

/-! ### Attach idempotency (part_003 attach, index.ts attachHandlers) -/

/-- Attachment state of one panel under part_003's `attach`: whether the
panel is in `attachedPanels`, how many readiness callbacks are scheduled
but not yet run, how many kernel `anyMessage` subscriptions exist, and
whether the panel is disposed. -/
structure AttachP3 where
  attached : Bool
  pendingReady : Nat
  subs : Nat
  disposed : Bool
deriving DecidableEq

/-- A fresh, not-yet-attached panel. -/
def initAttach : AttachP3 := { attached := false, pendingReady := 0, subs := 0, disposed := false }

/-- One call of part_003's `attach(panel)`: bail out if the panel is already
in `attachedPanels` or disposed, otherwise schedule the readiness
callback.  Note the panel is NOT added to `attachedPanels` here. -/
def attachCallP3 (s : AttachP3) : AttachP3 :=
  if s.attached || s.disposed then s
  else { s with pendingReady := s.pendingReady + 1 }

/-- One scheduled readiness callback of part_003 resolving: it only
re-checks `isDisposed`, then adds the panel to `attachedPanels` and
connects the kernel `anyMessage` subscription. -/
def readyResolveP3 (s : AttachP3) : AttachP3 :=
  match s.pendingReady with
  | 0 => s
  | n + 1 =>
    if s.disposed then { s with pendingReady := n }
    else { s with pendingReady := n, attached := true, subs := s.subs + 1 }

/-- One call of part_002's corrected `attach` (the
`jupyter-engagement-final-corrected` variant): the panel is claimed in
`attachedPanels` immediately, before awaiting readiness. -/
def attachCallV2 (s : AttachP3) : AttachP3 :=
  if s.attached || s.disposed then s
  else { s with attached := true, pendingReady := s.pendingReady + 1 }

/-- A readiness callback of the corrected variant: only re-checks
`isDisposed` before subscribing (the set was already claimed). -/
def readyResolveV2 (s : AttachP3) : AttachP3 :=
  match s.pendingReady with
  | 0 => s
  | n + 1 =>
    if s.disposed then { s with pendingReady := n }
    else { s with pendingReady := n, subs := s.subs + 1 }

/-- `attachHandlers` of `src/index.ts`: it has no idempotency guard at all —
every call connects a fresh kernel `anyMessage` subscription. -/
def attachHandlersSubs (subs : Nat) : Nat :=
  subs + 1

/-! ### Persistence (part_002 persistSummaryToFile) -/

/-- A value stored in the `'engage'` metadata record. -/
inductive EngVal where
  | sum3 (s : Summary3)
  | evts (l : List EngageEvent)
  | other (raw : String)
deriving DecidableEq

/-- A JavaScript object, as a key-ordered association list with unique
keys. -/
abbrev JsObjL : Type := List (String × EngVal)

/-- Replace the value of an entry when its key is the overridden one. -/
def replaceEntry (k0 : String) (v : EngVal) (p : String × EngVal) : String × EngVal :=
  if p.1 == k0 then (k0, v) else p

/-- JavaScript spread-with-override `{ ...store, k: v }`: every key of
`store` is kept in order, `k`'s value is replaced (or `k` is appended if
absent). -/
def spreadSet (store : JsObjL) (k : String) (v : EngVal) : JsObjL :=
  if store.any (fun p => p.1 == k) then store.map (replaceEntry k v)
  else store ++ [(k, v)]

/-- Property lookup on the object model (first matching key). -/
def lookupKey : JsObjL → String → Option EngVal
  | [], _ => none
  | (k', v) :: rest, k => if k' == k then some v else lookupKey rest k

/-- The host notebook-model metadata as the save path sees it: the current
`'engage'` record (absent modelled as the empty object) and the outcome
the host produces for the metadata write (`nbMd.set` may throw). -/
structure HostMeta where
  engage : JsObjL
  setResult : Except String Unit

/-- `persistSummaryToFile(panel)` of part_002: early-returns when the panel
state or notebook model is missing; otherwise reads the prior `'engage'`
record, builds `{ ...store, summary: state.summary }` and writes it back.
There is no try/catch, so a throwing write propagates.  Result:
`ok none` = returned without writing, `ok (some o)` = wrote `o`,
`error e` = exception `e` escaped to the caller. -/
def persistSummaryToFile (st : Option Summary3) (model : Option HostMeta) :
    Except String (Option JsObjL) :=
  match st, model with
  | none, _ => .ok none
  | _, none => .ok none
  | some s, some host =>
    let newData := spreadSet host.engage "summary" (EngVal.sum3 s)
    match host.setResult with
    | .ok _ => .ok (some newData)
    | .error e => .error e

/-! ### Concrete sample inputs -/

/-- A `runCell` event at time `t`. -/
def mkRunEv (t : Nat) : EngageEvent :=
  { ts := t, evt := EvKind.runCell, nb := "nb.ipynb" }

/-- An `open` event at time `t`. -/
def mkOpenEv (t : Nat) : EngageEvent :=
  { ts := t, evt := EvKind.openNb, nb := "nb.ipynb" }

/-- The fresh panel state `loadSummaryFromUI` installs when nothing parses:
all-zero summary, no focus marker, no error, no executed cells. -/
def initialPanelState : PanelStateP3 :=
  { summary := { runCnt := 0, errCnt := 0, activeMs := 0, markdownActiveMs := 0,
                 uniqueCellsExecuted := 0 }
    markdownFocusStartTs := none
    lastError := none
    executedCells := [] }

/-- An untagged code cell. -/
def codeCellS : CellData :=
  { ctype := CType.code, tags := [], source := "x = 1" }

/-- An untagged markdown cell. -/
def mdCellS : CellData :=
  { ctype := CType.markdown, tags := [], source := "notes" }

/-- A prior `'engage'` record holding an event log and an unrelated field. -/
def storeS : JsObjL :=
  [("events", EngVal.evts [mkRunEv 0]), ("version", EngVal.other "1")]

/-! ### Helper lemmas -/

/-- One event changes `runCnt` by exactly the execution-event indicator. -/
theorem stepEvent_runCnt (st : PanelStateP3) (e : PEvent) :
    (stepEvent st e).summary.runCnt
      = st.summary.runCnt + (if isExecEvent e then 1 else 0) := by
  cases e with
  | execInput now cell => rfl
  | errorMsg now cell => rfl
  | activeCellChange now isMd =>
    cases h : st.markdownFocusStartTs <;>
      simp [stepEvent, handleActiveCellChange, isExecEvent, h]

/-- One event changes `errCnt` by exactly the error-event indicator. -/
theorem stepEvent_errCnt (st : PanelStateP3) (e : PEvent) :
    (stepEvent st e).summary.errCnt
      = st.summary.errCnt + (if isErrorEvent e then 1 else 0) := by
  cases e with
  | execInput now cell => rfl
  | errorMsg now cell => rfl
  | activeCellChange now isMd =>
    cases h : st.markdownFocusStartTs <;>
      simp [stepEvent, handleActiveCellChange, isErrorEvent, h]

/-- One event changes `activeMs` by exactly the fixed credit when it is an
execution or error event, and by nothing otherwise. -/
theorem stepEvent_activeMs (st : PanelStateP3) (e : PEvent) :
    (stepEvent st e).summary.activeMs
      = st.summary.activeMs + (if isCreditEvent e then ENGAGEMENT_CREDIT_MS else 0) := by
  cases e with
  | execInput now cell => rfl
  | errorMsg now cell => rfl
  | activeCellChange now isMd =>
    cases h : st.markdownFocusStartTs <;>
      simp [stepEvent, handleActiveCellChange, isCreditEvent, h]

/-- `Set.add` really adds the element. -/
theorem mem_insertCell (l : List String) (id : String) : id ∈ insertCell l id := by
  unfold insertCell
  split
  · assumption
  · simp

/-- Length of a filtered replicate. -/
theorem length_filter_replicate {α : Type} (p : α → Bool) (n : Nat) (a : α) :
    ((List.replicate n a).filter p).length = if p a then n else 0 := by
  induction n with
  | zero => simp
  | succ n ih =>
    rw [List.replicate_succ]
    cases hp : p a <;> simp [List.filter_cons, hp, ih]

/-- A burst whose gaps all stay below the quiet period keeps exactly one
armed timer, due one quiet period after the last mutation, and fires no
save along the way. -/
theorem runMutations_chain (ts : List Nat) : ∀ (t0 : Nat) (S : List Nat),
    List.Chain (fun a b => a ≤ b ∧ b < a + SAVE_DEBOUNCE_MS) t0 ts →
    runMutations { deadline := some (t0 + SAVE_DEBOUNCE_MS), saves := S } ts
      = { deadline := some (lastTime t0 ts + SAVE_DEBOUNCE_MS), saves := S } := by
  induction ts with
  | nil => intro t0 S _; rfl
  | cons t ts ih =>
    intro t0 S h
    cases h with
    | cons hab hchain =>
      obtain ⟨h1, h2⟩ := hab
      have hstep : debounceStep { deadline := some (t0 + SAVE_DEBOUNCE_MS), saves := S } t
          = { deadline := some (t + SAVE_DEBOUNCE_MS), saves := S } := by
        simp only [debounceStep]
        rw [if_neg (by omega)]
      show runMutations (debounceStep { deadline := some (t0 + SAVE_DEBOUNCE_MS), saves := S } t) ts
        = _
      rw [hstep]
      exact ih t S hchain

/-- Replacement hits an entry with the overridden key. -/
theorem replaceEntry_hit (k0 k' : String) (v v' : EngVal) (h1 : (k' == k0) = true) :
    replaceEntry k0 v (k', v') = (k0, v) := by
  simp [replaceEntry, h1]

/-- Replacement leaves an entry with a different key alone. -/
theorem replaceEntry_miss (k0 k' : String) (v v' : EngVal) (h1 : (k' == k0) = false) :
    replaceEntry k0 v (k', v') = (k', v') := by
  simp [replaceEntry, h1]

/-- Lookup skips a rewritten key it does not ask for. -/
theorem lookupKey_map_ne (store : JsObjL) (k0 k : String) (v : EngVal) (h : k ≠ k0) :
    lookupKey (store.map (replaceEntry k0 v)) k = lookupKey store k := by
  induction store with
  | nil => rfl
  | cons a rest ih =>
    obtain ⟨k', v'⟩ := a
    by_cases h1 : (k' == k0) = true
    · have e' : k' = k0 := eq_of_beq h1
      subst e'
      have c1 : (k' == k) = false := beq_eq_false_iff_ne.mpr (Ne.symm h)
      rw [List.map_cons, replaceEntry_hit k' k' v v' h1]
      simp [lookupKey, c1, ih]
    · rw [List.map_cons, replaceEntry_miss k0 k' v v' (by simpa using h1)]
      by_cases h2 : (k' == k) = true <;> simp [lookupKey, h2, ih]

/-- Lookup at the rewritten key finds the new value when the key was
present. -/
theorem lookupKey_map_eq (store : JsObjL) (k0 : String) (v : EngVal)
    (hany : store.any (fun p => p.1 == k0) = true) :
    lookupKey (store.map (replaceEntry k0 v)) k0 = some v := by
  induction store with
  | nil => simp at hany
  | cons a rest ih =>
    obtain ⟨k', v'⟩ := a
    by_cases h1 : (k' == k0) = true
    · rw [List.map_cons, replaceEntry_hit k0 k' v v' h1]
      simp [lookupKey]
    · rw [List.any_cons] at hany
      simp only [h1, Bool.false_or] at hany
      rw [List.map_cons, replaceEntry_miss k0 k' v v' (by simpa using h1)]
      simp [lookupKey, h1, ih hany]

/-- Lookup ignores an appended entry under a different key. -/
theorem lookupKey_append_ne (store : JsObjL) (k0 k : String) (v : EngVal) (h : k ≠ k0) :
    lookupKey (store ++ [(k0, v)]) k = lookupKey store k := by
  induction store with
  | nil =>
    have hk : (k0 == k) = false := beq_eq_false_iff_ne.mpr (Ne.symm h)
    simp [lookupKey, hk]
  | cons a rest ih =>
    obtain ⟨k', v'⟩ := a
    by_cases h2 : (k' == k) = true <;> simp [lookupKey, h2, ih]

/-- Lookup finds an appended entry when its key was absent before. -/
theorem lookupKey_append_eq (store : JsObjL) (k0 : String) (v : EngVal)
    (hany : store.any (fun p => p.1 == k0) = false) :
    lookupKey (store ++ [(k0, v)]) k0 = some v := by
  induction store with
  | nil => simp [lookupKey]
  | cons a rest ih =>
    obtain ⟨k', v'⟩ := a
    rw [List.any_cons] at hany
    have h1 : (k' == k0) = false := by
      cases hh : k' == k0
      · rfl
      · rw [hh] at hany; simp at hany
    rw [h1] at hany
    simp only [Bool.false_or] at hany
    simp [lookupKey, h1, ih hany]

/-- The spread `{ ...store, k0: v }` leaves every other key unchanged. -/
theorem lookupKey_spreadSet_ne (store : JsObjL) (k0 k : String) (v : EngVal)
    (h : k ≠ k0) :
    lookupKey (spreadSet store k0 v) k = lookupKey store k := by
  unfold spreadSet
  split
  · exact lookupKey_map_ne store k0 k v h
  · exact lookupKey_append_ne store k0 k v h

/-- The spread `{ ...store, k0: v }` maps `k0` to `v`. -/
theorem lookupKey_spreadSet_eq (store : JsObjL) (k0 : String) (v : EngVal) :
    lookupKey (spreadSet store k0 v) k0 = some v := by
  unfold spreadSet
  split
  · next hany => exact lookupKey_map_eq store k0 v hany
  · next hany =>
    exact lookupKey_append_eq store k0 v (by
      cases hh : store.any (fun p => p.1 == k0)
      · rfl
      · exact absurd hh hany)

/-! ### Claim theorems -/

/-- C1 (counterexample): in the event-log variant, `flush` recomputes the
persisted counters from the retained window of at most 5000 events.  After
5000 `runCell` events the persisted `runCnt` is 5000; one further `open`
event evicts a `runCell` event from the window and the next flush persists
`runCnt = 4999` — the counter decreases across an operation of the session
and no longer equals the number of execution events since tracking
began. -/
theorem c1_flush_cap_counterexample :
    (flushSummary (mergedEvents [] (List.replicate 5000 (mkRunEv 0)))).runCnt = 5000 ∧
    (flushSummary (mergedEvents (mergedEvents [] (List.replicate 5000 (mkRunEv 0)))
        [mkOpenEv 1])).runCnt = 4999 := by
  have e1 : List.replicate 5000 (mkRunEv 0) = mkRunEv 0 :: List.replicate 4999 (mkRunEv 0) := by
    rw [show (5000 : Nat) = 4999 + 1 from rfl, List.replicate_succ]
  have h0 : mergedEvents [] (List.replicate 5000 (mkRunEv 0))
      = List.replicate 5000 (mkRunEv 0) := by
    simp only [mergedEvents, List.nil_append, List.length_replicate]
    rw [Nat.sub_self, List.drop_zero]
  have hrun : ((mkRunEv 0).evt == EvKind.runCell) = true := rfl
  have h1 : (flushSummary (List.replicate 5000 (mkRunEv 0))).runCnt = 5000 := by
    simp only [flushSummary]
    rw [length_filter_replicate]
    simp [hrun]
  have h2 : mergedEvents (List.replicate 5000 (mkRunEv 0)) [mkOpenEv 1]
      = List.replicate 4999 (mkRunEv 0) ++ [mkOpenEv 1] := by
    simp only [mergedEvents]
    have hlen : (List.replicate 5000 (mkRunEv 0) ++ [mkOpenEv 1]).length - 5000 = 1 := by
      rw [List.length_append, List.length_replicate]
      rfl
    rw [hlen, e1, List.cons_append]
    rfl
  have hopen : ((mkOpenEv 1).evt == EvKind.runCell) = false := rfl
  have h3 : (flushSummary (List.replicate 4999 (mkRunEv 0) ++ [mkOpenEv 1])).runCnt = 4999 := by
    simp only [flushSummary, List.filter_append, List.length_append]
    rw [length_filter_replicate]
    simp [hrun, List.filter_cons, hopen]
  exact ⟨by rw [h0]; exact h1, by rw [h0, h2]; exact h3⟩

/-- C1 (amended): in the per-document state machine of part_003, processing
any event sequence from any seed state leaves `runCnt` at the seed value
plus the number of execution events and `errCnt` at the seed value plus the
number of error events, and no single operation ever decreases either
counter.  (The event-log variant's recomputed counts instead equal the
counts within the retained 5000-event window — see the counterexample.) -/
theorem c1_amended_counts_monotone (st : PanelStateP3) (evs : List PEvent) :
    (processEvents st evs).summary.runCnt = st.summary.runCnt + evs.countP isExecEvent ∧
    (processEvents st evs).summary.errCnt = st.summary.errCnt + evs.countP isErrorEvent ∧
    (∀ (s : PanelStateP3) (e : PEvent),
      s.summary.runCnt ≤ (stepEvent s e).summary.runCnt ∧
      s.summary.errCnt ≤ (stepEvent s e).summary.errCnt) := by
  refine ⟨?_, ?_, ?_⟩
  · induction evs generalizing st with
    | nil => simp [processEvents]
    | cons e t ih =>
      show (processEvents (stepEvent st e) t).summary.runCnt = _
      rw [ih (stepEvent st e), stepEvent_runCnt, List.countP_cons]
      cases hE : isExecEvent e <;> simp [hE] <;> omega
  · induction evs generalizing st with
    | nil => simp [processEvents]
    | cons e t ih =>
      show (processEvents (stepEvent st e) t).summary.errCnt = _
      rw [ih (stepEvent st e), stepEvent_errCnt, List.countP_cons]
      cases hE : isErrorEvent e <;> simp [hE] <;> omega
  · intro s e
    constructor
    · rw [stepEvent_runCnt]
      cases isExecEvent e <;> simp
    · rw [stepEvent_errCnt]
      cases isErrorEvent e <;> simp

set_option maxRecDepth 20000

/-- C2: loading the block rendered for `Summary{7, 2, 600000, 0, 0}` (whose
table shows `Run count | 7`, `Error count | 2`, `Active time (min) | 10`)
yields exactly that summary back, those three rows are byte-for-byte the
strings shown, and re-rendering the loaded summary reproduces the whole
block — in particular those three rows — byte-for-byte. -/
theorem c2_round_trip_load :
    loadSummaryFromUI (renderMdP3 ⟨7, 2, 600000, 0, 0⟩ []) = ⟨7, 2, 600000, 0, 0⟩ ∧
    runRow ⟨7, 2, 600000, 0, 0⟩ = "| Run count | 7 |" ∧
    errRow ⟨7, 2, 600000, 0, 0⟩ = "| Error count | 2 |" ∧
    activeRow ⟨7, 2, 600000, 0, 0⟩ = "| Active time (min) | 10 |" ∧
    renderMdP3 (loadSummaryFromUI (renderMdP3 ⟨7, 2, 600000, 0, 0⟩ [])) []
      = renderMdP3 ⟨7, 2, 600000, 0, 0⟩ [] := by
  decide

/-- C3: attach is not idempotent in the shipped code.  `attachHandlers` of
`src/index.ts` connects a fresh kernel subscription on every call (two
calls, two subscriptions), and part_003's `attach` adds the panel to
`attachedPanels` only inside the readiness callback, so two attach calls
made before readiness resolves both subscribe (two subscriptions) — each
runtime event is then counted twice.  The part_002 corrected variant, which
claims the panel in the set immediately, yields exactly one subscription on
the same schedule. -/
theorem c3_double_subscription_bug :
    attachHandlersSubs (attachHandlersSubs 0) = 2 ∧
    (readyResolveP3 (readyResolveP3 (attachCallP3 (attachCallP3 initAttach)))).subs = 2 ∧
    (readyResolveV2 (readyResolveV2 (attachCallV2 (attachCallV2 initAttach)))).subs = 1 := by
  decide

/-- C4: a burst of `N ≥ 1` mutations with strictly less than the quiet
period `SAVE_DEBOUNCE_MS` between consecutive mutations produces exactly
one save, fired exactly one quiet period after the last mutation of the
burst. -/
theorem c4_debounce_coalescing (t0 : Nat) (ts : List Nat)
    (h : List.Chain (fun a b => a ≤ b ∧ b < a + SAVE_DEBOUNCE_MS) t0 ts) :
    drainTimer (runMutations initDb (t0 :: ts)) = [lastTime t0 ts + SAVE_DEBOUNCE_MS] := by
  show drainTimer (runMutations (debounceStep initDb t0) ts) = _
  have h0 : debounceStep initDb t0
      = { deadline := some (t0 + SAVE_DEBOUNCE_MS), saves := [] } := rfl
  rw [h0, runMutations_chain ts t0 [] h]
  rfl

/-- C4 (witness): three mutations at 0, 100 and 200 ms satisfy the
burst hypothesis and produce the single save at 950 ms. -/
theorem c4_debounce_coalescing_witness :
    List.Chain (fun a b => a ≤ b ∧ b < a + SAVE_DEBOUNCE_MS) 0 [100, 200] ∧
    drainTimer (runMutations initDb (0 :: [100, 200]))
      = [lastTime 0 [100, 200] + SAVE_DEBOUNCE_MS] := by
  have hch : List.Chain (fun a b => a ≤ b ∧ b < a + SAVE_DEBOUNCE_MS) 0 [100, 200] :=
    List.Chain.cons ⟨by decide, by decide⟩
      (List.Chain.cons ⟨by decide, by decide⟩ List.Chain.nil)
  exact ⟨hch, c4_debounce_coalescing 0 [100, 200] hch⟩

/-- C5 (counterexample): a mutation at time 0 followed by disposal at time
100 (inside the quiet period) discards the `DocumentState` with the change
still unsaved and zero save calls — not the claimed exactly-one forced
save. -/
theorem c5_dispose_drops_pending_counterexample :
    (disposeAt (mutateAt initDoc 0) 100).saves = [] ∧
    (disposeAt (mutateAt initDoc 0) 100).unsaved = true ∧
    (disposeAt (mutateAt initDoc 0) 100).alive = false := by
  decide

/-- C5 (amended): the `disposed` handler cancels the pending timer and
discards the `DocumentState` without performing any save of its own: the
saves after disposal are exactly the saves already fired, and an unsaved
mutation stays unsaved. -/
theorem c5_amended_dispose_no_save (s : DocLife) (t : Nat) :
    (disposeAt s t).saves = (fireIfDue s t).saves ∧
    (disposeAt s t).deadline = none ∧
    (disposeAt s t).alive = false ∧
    (disposeAt s t).unsaved = (fireIfDue s t).unsaved :=
  ⟨rfl, rfl, rfl, rfl⟩

/-- C6 (counterexample): the event-log variant's `flush` computes `activeMs`
as the timestamp span of the retained log, not as a fixed per-event credit:
two executions 1000 ms apart yield `activeMs = 1000`, not
`ENGAGEMENT_CREDIT_MS * 2 = 10000`. -/
theorem c6_flush_activeMs_counterexample :
    (flushSummary [mkRunEv 0, mkRunEv 1000]).runCnt = 2 ∧
    (flushSummary [mkRunEv 0, mkRunEv 1000]).activeMs = 1000 ∧
    (1000 : Nat) ≠ ENGAGEMENT_CREDIT_MS * 2 := by
  decide

/-- C6 (amended): in the part_003 state machine every handled execution
credits exactly `ENGAGEMENT_CREDIT_MS` to `activeMs`, increments `runCnt`
and adds the unit to `executedCells`; every handled error credits the same
fixed amount, increments `errCnt` and sets `lastError`; hence `k`
qualifying events grow `activeMs` by exactly `ENGAGEMENT_CREDIT_MS * k`. -/
theorem c6_amended_fixed_credit (st : PanelStateP3) (now : Nat) (id : String)
    (evs : List PEvent) (h : evs.all isCreditEvent = true) :
    (processEvents st evs).summary.activeMs
      = st.summary.activeMs + ENGAGEMENT_CREDIT_MS * evs.length ∧
    (handleCellRun st now id).summary.runCnt = st.summary.runCnt + 1 ∧
    (handleCellRun st now id).summary.activeMs
      = st.summary.activeMs + ENGAGEMENT_CREDIT_MS ∧
    id ∈ (handleCellRun st now id).executedCells ∧
    (handleCellError st now id).summary.errCnt = st.summary.errCnt + 1 ∧
    (handleCellError st now id).summary.activeMs
      = st.summary.activeMs + ENGAGEMENT_CREDIT_MS ∧
    (handleCellError st now id).lastError = some (id, now) := by
  refine ⟨?_, rfl, rfl, mem_insertCell st.executedCells id, rfl, rfl, rfl⟩
  induction evs generalizing st with
  | nil => simp [processEvents]
  | cons e t ih =>
    rw [List.all_cons, Bool.and_eq_true] at h
    obtain ⟨he, ht⟩ := h
    show (processEvents (stepEvent st e) t).summary.activeMs = _
    rw [ih (stepEvent st e) ht, stepEvent_activeMs, he, if_pos rfl, List.length_cons]
    ring

/-- C6 (witness): one execution and one error from the fresh panel state
satisfy the hypothesis and exhibit every conjunct. -/
theorem c6_amended_fixed_credit_witness :
    ([PEvent.execInput 1 "a", PEvent.errorMsg 2 "b"].all isCreditEvent = true) ∧
    ((processEvents initialPanelState
        [PEvent.execInput 1 "a", PEvent.errorMsg 2 "b"]).summary.activeMs
      = initialPanelState.summary.activeMs
          + ENGAGEMENT_CREDIT_MS * [PEvent.execInput 1 "a", PEvent.errorMsg 2 "b"].length ∧
    (handleCellRun initialPanelState 3 "a").summary.runCnt
      = initialPanelState.summary.runCnt + 1 ∧
    (handleCellRun initialPanelState 3 "a").summary.activeMs
      = initialPanelState.summary.activeMs + ENGAGEMENT_CREDIT_MS ∧
    "a" ∈ (handleCellRun initialPanelState 3 "a").executedCells ∧
    (handleCellError initialPanelState 3 "a").summary.errCnt
      = initialPanelState.summary.errCnt + 1 ∧
    (handleCellError initialPanelState 3 "a").summary.activeMs
      = initialPanelState.summary.activeMs + ENGAGEMENT_CREDIT_MS ∧
    (handleCellError initialPanelState 3 "a").lastError = some ("a", 3)) :=
  ⟨by decide,
   c6_amended_fixed_credit initialPanelState 3 "a"
     [PEvent.execInput 1 "a", PEvent.errorMsg 2 "b"] (by decide)⟩

/-- C7 (counterexample): the save path has no try/catch, so a host metadata
write that fails propagates its exception past the save path's boundary to
the caller, contradicting the never-throws claim. -/
theorem c7_uncaught_write_failure_counterexample :
    persistSummaryToFile (some ⟨1, 0, 5000⟩)
        (some { engage := [], setResult := Except.error "refused" })
      = Except.error "refused" := rfl

/-- C7 (amended): the save path returns normally when the panel state or
notebook model is missing, and on a successful host write it writes the
merged record; but a failing host metadata write is not caught — the
exception propagates to the caller unchanged. -/
theorem c7_amended_save_path (s : Summary3) (host hostOk : HostMeta)
    (hm : Option HostMeta) (e : String)
    (hfail : host.setResult = Except.error e)
    (hok : hostOk.setResult = Except.ok ()) :
    persistSummaryToFile (some s) (some host) = Except.error e ∧
    persistSummaryToFile (some s) (some hostOk)
      = Except.ok (some (spreadSet hostOk.engage "summary" (EngVal.sum3 s))) ∧
    persistSummaryToFile none hm = Except.ok none := by
  refine ⟨?_, ?_, ?_⟩
  · simp [persistSummaryToFile, hfail]
  · simp [persistSummaryToFile, hok]
  · cases hm <;> rfl

/-- C7 (witness): a host whose write throws `"refused"` and a host whose
write succeeds, at concrete inputs. -/
theorem c7_amended_save_path_witness :
    ({ engage := [], setResult := Except.error "refused" } : HostMeta).setResult
      = Except.error "refused" ∧
    ({ engage := [], setResult := Except.ok () } : HostMeta).setResult = Except.ok () ∧
    (persistSummaryToFile (some ⟨1, 0, 5000⟩)
        (some { engage := [], setResult := Except.error "refused" })
      = Except.error "refused" ∧
    persistSummaryToFile (some ⟨1, 0, 5000⟩)
        (some { engage := [], setResult := Except.ok () })
      = Except.ok (some (spreadSet ([] : JsObjL) "summary" (EngVal.sum3 ⟨1, 0, 5000⟩))) ∧
    persistSummaryToFile none none = Except.ok none) :=
  ⟨rfl, rfl,
   c7_amended_save_path ⟨1, 0, 5000⟩
     { engage := [], setResult := Except.error "refused" }
     { engage := [], setResult := Except.ok () } none "refused" rfl rfl⟩

/-- C8 (counterexample): when no tagged unit exists, the part_002
`updateSummaryCell` appends the newly created tagged summary cell at the
END of the cell list (`cells.push`): on a two-cell notebook the tagged cell
lands at index 2, not index 0. -/
theorem c8_append_at_end_counterexample :
    updateSummaryCell [codeCellS, codeCellS] "MD"
      = [codeCellS, codeCellS, mkSummaryCellV0 "MD"] ∧
    (updateSummaryCell [codeCellS, codeCellS] "MD").findIdx isTaggedMarkdown = 2 := by
  decide

/-- C8 (amended): the `src/index.ts` save path (`updateSummary`) does insert
the newly created tagged narrative unit at index 0 when no tagged unit
exists. -/
theorem c8_amended_insert_at_top (cells : List CellData) (md : String)
    (h : cells.any isTaggedMarkdown = false) :
    updateSummary cells md = mkSummaryCellV0 md :: cells ∧
    (updateSummary cells md).findIdx isTaggedMarkdown = 0 := by
  have h1 : updateSummary cells md = mkSummaryCellV0 md :: cells := by
    simp [updateSummary, h]
  refine ⟨h1, ?_⟩
  rw [h1, List.findIdx_cons]
  simp [show isTaggedMarkdown (mkSummaryCellV0 md) = true from rfl]

/-- C8 (witness): a one-cell notebook with no tagged cell. -/
theorem c8_amended_insert_at_top_witness :
    ([codeCellS].any isTaggedMarkdown = false) ∧
    (updateSummary [codeCellS] "MD" = mkSummaryCellV0 "MD" :: [codeCellS] ∧
    (updateSummary [codeCellS] "MD").findIdx isTaggedMarkdown = 0) :=
  ⟨by decide, c8_amended_insert_at_top [codeCellS] "MD" (by decide)⟩

/-- C9: a document with zero code cells renders the row
`Progress Completion | 0%`, whatever `uniqueCellsExecuted` is. -/
theorem c9_zero_code_cells_progress (s : SummaryP3) (cells : List CellData)
    (h : totalCodeCellCount cells = 0) :
    progressRow s cells = "| Progress Completion | 0% |" := by
  unfold progressRow
  rw [h]
  have hp : progressPercent s.uniqueCellsExecuted 0 = 0 := by
    simp [progressPercent]
  rw [hp]
  rfl

/-- C9 (witness): a markdown-only notebook and a summary with 42 unique
cells executed. -/
theorem c9_zero_code_cells_progress_witness :
    totalCodeCellCount [mdCellS] = 0 ∧
    progressRow ⟨0, 0, 0, 0, 42⟩ [mdCellS] = "| Progress Completion | 0% |" :=
  ⟨by decide, c9_zero_code_cells_progress ⟨0, 0, 0, 0, 42⟩ [mdCellS] (by decide)⟩

/-- C10: the record the save path writes is the prior `'engage'` record
with only the `summary` field replaced: every other key — in particular
the `events` log — looks up to exactly its prior value, and `summary`
looks up to the saved in-memory summary. -/
theorem c10_save_frame (store : JsObjL) (s : Summary3) (k : String) (res : JsObjL)
    (hk : k ≠ "summary")
    (hw : persistSummaryToFile (some s) (some { engage := store, setResult := Except.ok () })
      = Except.ok (some res)) :
    lookupKey res k = lookupKey store k ∧
    lookupKey res "summary" = some (EngVal.sum3 s) := by
  have hres : res = spreadSet store "summary" (EngVal.sum3 s) := by
    simp only [persistSummaryToFile] at hw
    exact (Option.some.injEq _ _ ▸ (Except.ok.injEq _ _ ▸ hw)).symm
  subst hres
  exact ⟨lookupKey_spreadSet_ne store "summary" k (EngVal.sum3 s) hk,
    lookupKey_spreadSet_eq store "summary" (EngVal.sum3 s)⟩

/-- C10 (witness): saving `Summary{7, 2, 600000}` over a record holding an
event log leaves the `events` entry untouched and replaces `summary`. -/
theorem c10_save_frame_witness :
    ("events" : String) ≠ "summary" ∧
    (lookupKey (spreadSet storeS "summary" (EngVal.sum3 ⟨7, 2, 600000⟩)) "events"
      = lookupKey storeS "events" ∧
    lookupKey (spreadSet storeS "summary" (EngVal.sum3 ⟨7, 2, 600000⟩)) "summary"
      = some (EngVal.sum3 ⟨7, 2, 600000⟩)) :=
  ⟨by decide,
   c10_save_frame storeS ⟨7, 2, 600000⟩ "events"
     (spreadSet storeS "summary" (EngVal.sum3 ⟨7, 2, 600000⟩)) (by decide) rfl⟩
